import Mathlib

/-!
Verification of the voice-channel connection/playback coordination logic of
the Blabber Discord bot (`src/cogs/voice.py`).

The embedding translates the `Voice` cog's operations (`_connect`,
`connect`, `disconnect`, `say`) into pure Lean functions over an explicit
context/state record.  External collaborators that live outside `src/`
(the permission checks in `blabber.checks`, the `TTSAudio` queue in
`blabber.audio`, the voice-profile registries on the bot object) are
modelled from the spec as boolean outcomes, a FIFO queue, and a lookup
with a default, respectively.  Backend voice calls (`connect`, `move_to`,
`disconnect`, `play`) are modelled as events recorded in a trace, with
boolean fields of the context deciding whether each transport call fails.
-/

namespace Blabber

/-- A TTS request: message text plus resolved voice-profile parameters
(`blabber.request.TTSRequest`, modelled from the spec as an opaque pair). -/
structure TTSRequest where
  message : String
  voice : String
deriving DecidableEq, Repr

/-- Modelled from the spec: `blabber.audio.TTSAudio` (not under `src/`) is
an AudioSource backed by a FIFO of pending speech requests, identified here
by `sid` so that distinct instances are distinguishable. -/
structure TTSAudio where
  sid : Nat
  queue : List TTSRequest
deriving DecidableEq, Repr

/-- The backend player handle (`voice_client._player`): owns an audio source. -/
structure Player where
  source : TTSAudio
deriving DecidableEq, Repr

/-- The backend voice session (`ctx.voice_client`): current channel, optional
player handle, and the `is_playing()` flag. -/
structure VoiceClient where
  channel : Nat
  player : Option Player
  playing : Bool
deriving DecidableEq, Repr

/-- Error kinds surfaced by the cog's operations. -/
inductive VErr
  | permissionError
  | backendError
deriving DecidableEq, Repr

/-- Observable side effects: external checks invoked, queue clears, backend
calls issued (recorded even when the transport call then fails), and
user-visible acknowledgements. -/
inductive Event
  | checkCanDisconnect
  | checkRequiredPerms
  | clearQueue
  | moveCall (ch : Nat)
  | connectCall (ch : Nat)
  | disconnectCall
  | submitCall (sid : Nat)
  | playCall (sid : Nat)
  | sendInfo
  | sendSuccess
deriving DecidableEq, Repr

/-- Command invocation context.  `canDisconnectOk` / `requiredPermsOk` are
modelled from the spec: they are the outcomes of the external checks
`can_disconnect` and `blabber_has_required_permissions` from
`blabber.checks` (not under `src/`), which pass or raise `PermissionError`.
`moveFails` / `connectFails` / `disconnectFails` decide whether the
corresponding backend transport call raises.  `profiles` and `voices` are
modelled from the spec: the registries `bot.voice_profiles` (mapping
`(invoker, channel)` to a profile name, default applied on miss) and
`bot.voices` (profile name to parameters) are not under `src/`.
`nextSid` is the next fresh source id drawn when constructing a
`TTSAudio` bound to the shared pool. -/
structure Ctx where
  voiceClient : Option VoiceClient
  authorChannel : Nat
  author : Nat
  textChannel : Nat
  canDisconnectOk : Bool
  requiredPermsOk : Bool
  moveFails : Bool
  connectFails : Bool
  disconnectFails : Bool
  profiles : List ((Nat × Nat) × String)
  voices : String → String
  nextSid : Nat

/-- `player.source.clear()`: drop all pending requests of the player's
audio source, if a player exists. -/
def clearPlayerQueue (vc : VoiceClient) : VoiceClient :=
  match vc.player with
  | some p => { vc with player := some { p with source := { p.source with queue := [] } } }
  | none => vc

/-- Result of the `_connect` helper: on success, the operation name
(`'Moved'` / `'Connected'`) and the session afterwards; on failure, the
error and the session state left behind. -/
inductive ConnResult
  | ok (op : String) (vc : VoiceClient)
  | err (e : VErr) (st : Option VoiceClient)
deriving DecidableEq, Repr

/-- Outcome of the `_connect` helper: result plus event trace. -/
structure ConnOut where
  res : ConnResult
  trace : List Event
deriving DecidableEq, Repr

/-- The session state after the operation, success or failure. -/
def ConnOut.postState (o : ConnOut) : Option VoiceClient :=
  match o.res with
  | .ok _ vc => some vc
  | .err _ st => st

/-- Embedding of `Voice._connect` (voice.py lines 32-60): if a session
exists, run `can_disconnect` then `blabber_has_required_permissions`,
clear the player's source queue when a player exists, then issue the
backend `move_to`; otherwise run the permission check and issue the
backend `connect`.  A failing check raises before anything else happens;
a failing backend call raises after the events already performed. -/
def connectHelper (ctx : Ctx) : ConnOut :=
  match ctx.voiceClient with
  | some vc =>
    if ctx.canDisconnectOk then
      if ctx.requiredPermsOk then
        let vc1 := clearPlayerQueue vc
        let tr1 := if vc.player.isSome then [Event.clearQueue] else []
        if ctx.moveFails then
          { res := .err .backendError (some vc1),
            trace := [.checkCanDisconnect, .checkRequiredPerms] ++ tr1
              ++ [.moveCall ctx.authorChannel] }
        else
          { res := .ok "Moved" { vc1 with channel := ctx.authorChannel },
            trace := [.checkCanDisconnect, .checkRequiredPerms] ++ tr1
              ++ [.moveCall ctx.authorChannel] }
      else
        { res := .err .permissionError (some vc),
          trace := [.checkCanDisconnect, .checkRequiredPerms] }
    else
      { res := .err .permissionError (some vc), trace := [.checkCanDisconnect] }
  | none =>
    if ctx.requiredPermsOk then
      if ctx.connectFails then
        { res := .err .backendError none,
          trace := [.checkRequiredPerms, .connectCall ctx.authorChannel] }
      else
        { res := .ok "Connected"
            { channel := ctx.authorChannel, player := none, playing := false },
          trace := [.checkRequiredPerms, .connectCall ctx.authorChannel] }
    else
      { res := .err .permissionError none, trace := [.checkRequiredPerms] }

/-- Result of a user-facing command. -/
inductive CmdResult
  | alreadyPresent
  | notConnected
  | done (op : String)
  | failed (e : VErr)
deriving DecidableEq, Repr

/-- Outcome of a user-facing command. -/
structure CmdOut where
  result : CmdResult
  state : Option VoiceClient
  trace : List Event
deriving DecidableEq, Repr

/-- The `else` branch of the `connect` command: run the `_connect` helper
and acknowledge the performed operation. -/
def connectCmdRun (ctx : Ctx) : CmdOut :=
  let o := connectHelper ctx
  match o.res with
  | .ok op vc => { result := .done op, state := some vc, trace := o.trace ++ [.sendSuccess] }
  | .err e st => { result := .failed e, state := st, trace := o.trace }

/-- Embedding of the `connect` command (voice.py lines 80-95): if the bot
is already in the invoker's voice channel, send an informational message
only; otherwise delegate to the `_connect` helper. -/
def connectCmd (ctx : Ctx) : CmdOut :=
  match ctx.voiceClient with
  | some vc =>
    if ctx.authorChannel = vc.channel then
      { result := .alreadyPresent, state := some vc, trace := [.sendInfo] }
    else connectCmdRun ctx
  | none => connectCmdRun ctx

/-- Embedding of the `disconnect` command (voice.py lines 62-78): if no
session exists, send an informational message only; otherwise run
`can_disconnect` then issue the backend `disconnect`. -/
def disconnectCmd (ctx : Ctx) : CmdOut :=
  match ctx.voiceClient with
  | none => { result := .notConnected, state := none, trace := [.sendInfo] }
  | some vc =>
    if ctx.canDisconnectOk then
      if ctx.disconnectFails then
        { result := .failed .backendError, state := some vc,
          trace := [.checkCanDisconnect, .disconnectCall] }
      else
        { result := .done "Disconnected", state := none,
          trace := [.checkCanDisconnect, .disconnectCall, .sendSuccess] }
    else
      { result := .failed .permissionError, state := some vc,
        trace := [.checkCanDisconnect] }

/-- Modelled from the spec: resolution through `bot.voice_profiles`
(not under `src/`) — look up `(invoker, channel)` and apply the default
profile name on a miss, never failing. -/
def resolveAlias (profiles : List ((Nat × Nat) × String)) (invoker chan : Nat) : String :=
  match List.lookup (invoker, chan) profiles with
  | some a => a
  | none => "default"

/-- Step 1 of the `say` command (voice.py line 110): if the session is
absent or its channel differs from the invoker's voice channel, invoke the
`_connect` helper; otherwise keep the current session (marker op, no
events, no helper call). -/
def sayConn (ctx : Ctx) : ConnOut :=
  match ctx.voiceClient with
  | some vc =>
    if ctx.authorChannel = vc.channel then { res := .ok "AlreadyConnected" vc, trace := [] }
    else connectHelper ctx
  | none => connectHelper ctx

/-- Outcome of a `say` invocation: error (if any), session state, event
trace, whether a fresh `TTSAudio` was constructed, which source id the
request was submitted to, and the submitted request. -/
structure SayOut where
  result : Option VErr
  state : Option VoiceClient
  trace : List Event
  createdSource : Bool
  usedSource : Option Nat
  submitted : Option TTSRequest
deriving Repr

/-- Embedding of the `say` command body (voice.py lines 100-131), run as a
single uninterrupted invocation: ensure connection (propagating any
`_connect` failure without building or submitting a request), reuse the
player's source if a player exists and construct a fresh `TTSAudio`
otherwise, resolve the voice profile for `(invoker, text channel)`, build
and submit the `TTSRequest`, and call `play` on the obtained source iff
the session is not already playing. -/
def sayCmd (ctx : Ctx) (message : String) : SayOut :=
  let conn := sayConn ctx
  match conn.res with
  | .err e st =>
    { result := some e, state := st, trace := conn.trace,
      createdSource := false, usedSource := none, submitted := none }
  | .ok _ vc =>
    let (audio0, created) :=
      match vc.player with
      | some p => (p.source, false)
      | none => (⟨ctx.nextSid, []⟩, true)
    let a := resolveAlias ctx.profiles ctx.author ctx.textChannel
    let req : TTSRequest := ⟨message, ctx.voices a⟩
    let audio : TTSAudio := { audio0 with queue := audio0.queue ++ [req] }
    let tr1 := conn.trace ++ [.submitCall audio.sid]
    if vc.playing then
      let vc1 := if created then vc else { vc with player := some ⟨audio⟩ }
      { result := none, state := some vc1, trace := tr1,
        createdSource := created, usedSource := some audio.sid, submitted := some req }
    else
      { result := none, state := some { vc with player := some ⟨audio⟩, playing := true },
        trace := tr1 ++ [.playCall audio.sid],
        createdSource := created, usedSource := some audio.sid, submitted := some req }

/-! ### Interleaving model for concurrent `say` invocations

`say` is a coroutine: it suspends at `await` boundaries, in particular at
`await audio.submit_request(request)` between reading
`ctx.voice_client._player` (lines 113-117) and the `is_playing()` check /
`play` call (lines 127-129).  The cog takes no lock, so two invocations
for the same guild may interleave at that boundary.  The machine below
models two `say` tasks on a session that is already connected to the
invoker's channel with no active player, at `await` granularity; queue
submission itself is atomic (spec §5). -/

/-- Progress of one `say` task: not yet started; suspended at
`submit_request` holding its obtained source id; finished. -/
inductive Phase
  | start
  | submitted (sid : Nat)
  | done
deriving DecidableEq, Repr

/-- The shared voice client as the `say` body reads and writes it:
`player` is the source id the backend player holds, `playing` the
`is_playing()` flag. -/
structure SimClient where
  player : Option Nat
  playing : Bool
deriving DecidableEq, Repr

/-- Shared state of the two-task simulation: the voice client, every
`TTSAudio` constructed so far (id with its pending queue), the next fresh
source id, and each task's phase. -/
structure SimState where
  client : SimClient
  sources : List (Nat × List TTSRequest)
  nextSid : Nat
  phaseA : Phase
  phaseB : Phase
deriving DecidableEq, Repr

/-- Enqueue a request into the source with the given id (atomic queue op). -/
def submitTo (ss : List (Nat × List TTSRequest)) (sid : Nat) (r : TTSRequest) :
    List (Nat × List TTSRequest) :=
  ss.map (fun p => if p.1 = sid then (p.1, p.2 ++ [r]) else p)

/-- Set the phase of task `t` (`false` = A, `true` = B). -/
def setPhase (t : Bool) (ph : Phase) (s : SimState) : SimState :=
  if t then { s with phaseB := ph } else { s with phaseA := ph }

/-- One scheduling step of task `t` running the `say` body.  From `start`:
read `_player`, reuse its source or construct a fresh `TTSAudio`, submit
the request, then suspend at the `await`.  From `submitted`: resume, and
`play` the obtained source iff `is_playing()` is false.  `done`: no-op. -/
def stepSay (reqA reqB : TTSRequest) (t : Bool) (s : SimState) : SimState :=
  let ph := if t then s.phaseB else s.phaseA
  let req := if t then reqB else reqA
  match ph with
  | .start =>
    let (sid, sources1, next1) :=
      match s.client.player with
      | some sid => (sid, s.sources, s.nextSid)
      | none => (s.nextSid, s.sources ++ [(s.nextSid, [])], s.nextSid + 1)
    setPhase t (.submitted sid)
      { s with sources := submitTo sources1 sid req, nextSid := next1 }
  | .submitted sid =>
    if s.client.playing then setPhase t .done s
    else setPhase t .done { s with client := { player := some sid, playing := true } }
  | .done => s

/-- Run a schedule (list of task ids) from a state. -/
def runSched (reqA reqB : TTSRequest) : List Bool → SimState → SimState
  | [], s => s
  | t :: ts, s => runSched reqA reqB ts (stepSay reqA reqB t s)

/-- Initial state: connected session, no player, not playing, no sources. -/
def simInit : SimState :=
  { client := { player := none, playing := false }, sources := [],
    nextSid := 0, phaseA := .start, phaseB := .start }

/-- Does an event occur in a trace? -/
def occursIn (a : Event) : List Event → Bool
  | [] => false
  | e :: es => if e = a then true else occursIn a es

/-- Does `a` occur strictly before (some occurrence of) `b` in the trace? -/
def occursBefore (a b : Event) : List Event → Bool
  | [] => false
  | e :: es => if e = a then occursIn b es else occursBefore a b es

theorem occursIn_append (a : Event) (l l' : List Event) :
    occursIn a (l ++ l') = (occursIn a l || occursIn a l') := by
  induction l with
  | nil => simp [occursIn]
  | cons e es ih => by_cases h : e = a <;> simp [occursIn, h, ih]

/-- The `_connect` helper never submits a request nor starts playback. -/
theorem connectHelper_trace_events (ctx : Ctx) (sid : Nat) :
    occursIn (.submitCall sid) (connectHelper ctx).trace = false
    ∧ occursIn (.playCall sid) (connectHelper ctx).trace = false := by
  cases hvc : ctx.voiceClient with
  | none =>
    cases hrp : ctx.requiredPermsOk <;> cases hcf : ctx.connectFails <;>
      simp [connectHelper, hvc, hrp, hcf, occursIn]
  | some vc =>
    cases hcd : ctx.canDisconnectOk <;> cases hrp : ctx.requiredPermsOk <;>
      cases hmf : ctx.moveFails <;> cases hp : vc.player <;>
        simp [connectHelper, hvc, hcd, hrp, hmf, hp, occursIn]

/-- The connection step of `say` never submits a request nor starts playback. -/
theorem sayConn_trace_events (ctx : Ctx) (sid : Nat) :
    occursIn (.submitCall sid) (sayConn ctx).trace = false
    ∧ occursIn (.playCall sid) (sayConn ctx).trace = false := by
  cases hvc : ctx.voiceClient with
  | none => simpa [sayConn, hvc] using connectHelper_trace_events ctx sid
  | some vc =>
    by_cases hch : ctx.authorChannel = vc.channel
    · simp [sayConn, hvc, hch, occursIn]
    · simpa [sayConn, hvc, hch] using connectHelper_trace_events ctx sid

/-- C1: whenever the `_connect` helper runs with an existing session whose
player is non-absent, any backend `move_to` call it issues is preceded by a
`clear()` of the player's audio source, and on a completed move the
resulting session's source queue is empty. -/
theorem move_clears_queue_before_move (ctx : Ctx) (vc : VoiceClient) (p : Player)
    (hvc : ctx.voiceClient = some vc) (hp : vc.player = some p) :
    (occursIn (.moveCall ctx.authorChannel) (connectHelper ctx).trace = true →
      occursBefore .clearQueue (.moveCall ctx.authorChannel) (connectHelper ctx).trace = true)
    ∧ (∀ op vc1, (connectHelper ctx).res = .ok op vc1 →
        ∃ p1, vc1.player = some p1 ∧ p1.source.queue = []) := by
  cases hcd : ctx.canDisconnectOk <;> cases hrp : ctx.requiredPermsOk <;>
    cases hmf : ctx.moveFails <;>
      simp [connectHelper, hvc, hcd, hrp, hmf, hp, clearPlayerQueue,
        occursIn, occursBefore]

/-- Concrete invocation for C1: session on channel 1 with one pending
request, invoker on channel 2, all checks pass, move succeeds. -/
def ctxC1 : Ctx :=
  { voiceClient := some
      { channel := 1, player := some ⟨⟨0, [⟨"stale", "en"⟩]⟩⟩, playing := true },
    authorChannel := 2, author := 7, textChannel := 3,
    canDisconnectOk := true, requiredPermsOk := true,
    moveFails := false, connectFails := false, disconnectFails := false,
    profiles := [], voices := fun _ => "en", nextSid := 1 }

theorem move_clears_queue_before_move_w :
    occursBefore .clearQueue (.moveCall 2) (connectHelper ctxC1).trace = true :=
  (move_clears_queue_before_move ctxC1
    { channel := 1, player := some ⟨⟨0, [⟨"stale", "en"⟩]⟩⟩, playing := true }
    ⟨⟨0, [⟨"stale", "en"⟩]⟩⟩ rfl rfl).1 (by decide)

/-- Requests of the two concurrent `say` invocations in the race exhibit. -/
def reqA : TTSRequest := ⟨"first", "en"⟩

def reqB : TTSRequest := ⟨"second", "en"⟩

/-- C2: the cog takes no per-session lock, so the interleaving in which
task A and task B each run the `say` body up to the `submit_request`
`await` before either resumes makes both read `_player = None` and each
construct its own `TTSAudio`: two distinct sources (ids 0 and 1) are
created, the two requests land in different sources, and only source 0 is
ever attached to the player — source 1's request is stranded.  This
contradicts the claimed exactly-one-source serialization. -/
theorem say_race_creates_two_sources :
    (runSched reqA reqB [false, true, false, true] simInit).nextSid = 2
    ∧ (runSched reqA reqB [false, true, false, true] simInit).sources =
        [(0, [reqA]), (1, [reqB])]
    ∧ (runSched reqA reqB [false, true, false, true] simInit).client =
        { player := some 0, playing := true }
    ∧ (runSched reqA reqB [false, true, false, true] simInit).phaseA = .done
    ∧ (runSched reqA reqB [false, true, false, true] simInit).phaseB = .done := by
  decide

/-- Concrete invocation for C3: session on channel 1 whose player has one
pending request, invoker on channel 2, checks pass, but the backend
`move_to` call fails at the transport layer. -/
def ctxC3 : Ctx :=
  { voiceClient := some
      { channel := 1, player := some ⟨⟨0, [⟨"hello", "en"⟩]⟩⟩, playing := true },
    authorChannel := 2, author := 7, textChannel := 3,
    canDisconnectOk := true, requiredPermsOk := true,
    moveFails := true, connectFails := false, disconnectFails := false,
    profiles := [], voices := fun _ => "en", nextSid := 5 }

/-- C3 counterexample: on a failing backend `move_to`, the session state
afterwards is NOT the pre-operation state — the player's source queue was
already cleared before the move was issued and is not restored. -/
theorem move_failure_state_differs :
    (connectHelper ctxC3).res = .err .backendError
      (some { channel := 1, player := some ⟨⟨0, []⟩⟩, playing := true })
    ∧ (connectHelper ctxC3).postState ≠ ctxC3.voiceClient := by
  decide

/-- C3 amended: on a transport-layer failure of the backend `connect` or
`disconnect` call, the session state is unchanged; on a failure of the
backend `move_to` call, the channel, player and playing flag are
unchanged, but the player's audio-source queue has already been cleared
(the clear precedes the move and is not rolled back). -/
theorem backend_failure_state (ctx : Ctx) :
    (ctx.voiceClient = none → ctx.requiredPermsOk = true → ctx.connectFails = true →
      (connectHelper ctx).res = .err .backendError none
      ∧ (connectHelper ctx).postState = ctx.voiceClient)
    ∧ (∀ vc, ctx.voiceClient = some vc → ctx.canDisconnectOk = true →
        ctx.disconnectFails = true →
      (disconnectCmd ctx).result = .failed .backendError
      ∧ (disconnectCmd ctx).state = some vc)
    ∧ (∀ vc, ctx.voiceClient = some vc → ctx.canDisconnectOk = true →
        ctx.requiredPermsOk = true → ctx.moveFails = true →
      (connectHelper ctx).res = .err .backendError (some (clearPlayerQueue vc))
      ∧ (connectHelper ctx).postState = some (clearPlayerQueue vc)) := by
  refine ⟨fun hvc hrp hcf => ?_, fun vc hvc hcd hdf => ?_, fun vc hvc hcd hrp hmf => ?_⟩
  · simp [connectHelper, ConnOut.postState, hvc, hrp, hcf]
  · simp [disconnectCmd, hvc, hcd, hdf]
  · cases hp : vc.player <;>
      simp [connectHelper, ConnOut.postState, clearPlayerQueue, hvc, hcd, hrp, hmf, hp]

theorem backend_failure_state_w :
    (connectHelper ctxC3).postState =
      some (clearPlayerQueue
        { channel := 1, player := some ⟨⟨0, [⟨"hello", "en"⟩]⟩⟩, playing := true }) :=
  ((backend_failure_state ctxC3).2.2
    { channel := 1, player := some ⟨⟨0, [⟨"hello", "en"⟩]⟩⟩, playing := true }
    rfl rfl rfl rfl).2

/-- Concrete invocation for C4: session and invoker both on channel 1. -/
def ctxC4 : Ctx :=
  { voiceClient := some { channel := 1, player := none, playing := false },
    authorChannel := 1, author := 7, textChannel := 3,
    canDisconnectOk := true, requiredPermsOk := true,
    moveFails := false, connectFails := false, disconnectFails := false,
    profiles := [], voices := fun _ => "en", nextSid := 1 }

/-- C4: when a session exists on the invoker's target channel, the
`connect` command is a pure no-op: result `AlreadyPresent`, the session
unchanged, and the only effect an informational message — in particular
no backend connect or move call and no queue clear. -/
theorem connect_already_present (ctx : Ctx) (vc : VoiceClient)
    (hvc : ctx.voiceClient = some vc) (hch : ctx.authorChannel = vc.channel) :
    connectCmd ctx =
      { result := .alreadyPresent, state := some vc, trace := [.sendInfo] } := by
  simp [connectCmd, hvc, hch]

theorem connect_already_present_w :
    connectCmd ctxC4 =
      { result := .alreadyPresent,
        state := some { channel := 1, player := none, playing := false },
        trace := [.sendInfo] } :=
  connect_already_present ctxC4 { channel := 1, player := none, playing := false } rfl rfl

/-- Concrete invocation for C5: no session, permissions pass, connect
succeeds. -/
def ctxC5 : Ctx :=
  { voiceClient := none,
    authorChannel := 3, author := 7, textChannel := 3,
    canDisconnectOk := true, requiredPermsOk := true,
    moveFails := false, connectFails := false, disconnectFails := false,
    profiles := [], voices := fun _ => "en", nextSid := 1 }

/-- C5: with no current session, any backend `connect` call the helper
issues is preceded by the required-permission check; on permission failure
the result is `PermissionError`, the connect is never attempted and the
state is unchanged; on success the result is `Connected` with the session
bound to the target channel. -/
theorem connect_fresh_session (ctx : Ctx) (hvc : ctx.voiceClient = none) :
    (occursIn (.connectCall ctx.authorChannel) (connectHelper ctx).trace = true →
      occursBefore .checkRequiredPerms (.connectCall ctx.authorChannel)
        (connectHelper ctx).trace = true)
    ∧ (ctx.requiredPermsOk = false →
        (connectHelper ctx).res = .err .permissionError none
        ∧ occursIn (.connectCall ctx.authorChannel) (connectHelper ctx).trace = false
        ∧ (connectHelper ctx).postState = none)
    ∧ (ctx.requiredPermsOk = true → ctx.connectFails = false →
        (connectHelper ctx).res = .ok "Connected"
          { channel := ctx.authorChannel, player := none, playing := false }) := by
  cases hrp : ctx.requiredPermsOk <;> cases hcf : ctx.connectFails <;>
    simp [connectHelper, ConnOut.postState, hvc, hrp, hcf, occursIn, occursBefore]

theorem connect_fresh_session_w :
    (connectHelper ctxC5).res = .ok "Connected"
      { channel := 3, player := none, playing := false } :=
  (connect_fresh_session ctxC5 rfl).2.2 rfl rfl

/-- C6: once the connection step of `say` has settled on a session, the
source used for submission is the existing player's source whenever a
player is active (no new source constructed), and a freshly constructed
`TTSAudio` (drawn from the pool with the next fresh id) whenever it is
not. -/
theorem say_source_reuse (ctx : Ctx) (msg op : String) (vc : VoiceClient)
    (hok : (sayConn ctx).res = .ok op vc) :
    (∀ p, vc.player = some p →
      (sayCmd ctx msg).createdSource = false
      ∧ (sayCmd ctx msg).usedSource = some p.source.sid)
    ∧ (vc.player = none →
      (sayCmd ctx msg).createdSource = true
      ∧ (sayCmd ctx msg).usedSource = some ctx.nextSid) := by
  refine ⟨fun p hp => ?_, fun hp => ?_⟩ <;>
    cases hpl : vc.playing <;> simp [sayCmd, hok, hp, hpl]

/-- Concrete invocation for C6: session already on the invoker's channel,
no player active. -/
def ctxC6 : Ctx :=
  { voiceClient := some { channel := 1, player := none, playing := false },
    authorChannel := 1, author := 7, textChannel := 3,
    canDisconnectOk := true, requiredPermsOk := true,
    moveFails := false, connectFails := false, disconnectFails := false,
    profiles := [], voices := fun _ => "en", nextSid := 4 }

theorem say_source_reuse_w :
    (sayCmd ctxC6 "hi").createdSource = true
    ∧ (sayCmd ctxC6 "hi").usedSource = some 4 :=
  (say_source_reuse ctxC6 "hi" "AlreadyConnected"
    { channel := 1, player := none, playing := false } rfl).2 rfl

/-- C7: once the connection step of `say` has settled on a session, `play`
is called, bound to the obtained source, iff the session is not already
playing; when it is playing no play call at all is made. -/
theorem say_plays_iff_idle (ctx : Ctx) (msg op : String) (vc : VoiceClient)
    (hok : (sayConn ctx).res = .ok op vc) :
    (vc.playing = true →
      ∀ sid, occursIn (.playCall sid) (sayCmd ctx msg).trace = false)
    ∧ (vc.playing = false →
      ∃ sid, (sayCmd ctx msg).usedSource = some sid
        ∧ occursIn (.playCall sid) (sayCmd ctx msg).trace = true) := by
  constructor
  · intro hpl sid
    cases hp : vc.player <;>
      simp [sayCmd, hok, hp, hpl, occursIn_append, occursIn,
        (sayConn_trace_events ctx sid).2]
  · intro hpl
    cases hp : vc.player with
    | none =>
      exact ⟨ctx.nextSid, by simp [sayCmd, hok, hp, hpl, occursIn_append, occursIn]⟩
    | some p =>
      exact ⟨p.source.sid, by simp [sayCmd, hok, hp, hpl, occursIn_append, occursIn]⟩

/-- Concrete invocation for C7: session already on the invoker's channel,
idle. -/
def ctxC7 : Ctx :=
  { voiceClient := some { channel := 2, player := none, playing := false },
    authorChannel := 2, author := 7, textChannel := 3,
    canDisconnectOk := true, requiredPermsOk := true,
    moveFails := false, connectFails := false, disconnectFails := false,
    profiles := [], voices := fun _ => "en", nextSid := 0 }

theorem say_plays_iff_idle_w :
    ∃ sid, (sayCmd ctxC7 "hi").usedSource = some sid
      ∧ occursIn (.playCall sid) (sayCmd ctxC7 "hi").trace = true :=
  (say_plays_iff_idle ctxC7 "hi" "AlreadyConnected"
    { channel := 2, player := none, playing := false } rfl).2 rfl

/-- C8: when the connection step of `say` fails, the error propagates
unchanged as the outcome of `say`, the session state is whatever the
helper left, no request is built or submitted, no source is created, and
the whole trace is exactly the helper's trace (in particular it contains
no submission). -/
theorem say_connect_failure_propagates (ctx : Ctx) (msg : String) (e : VErr)
    (st : Option VoiceClient) (herr : (sayConn ctx).res = .err e st) :
    (sayCmd ctx msg).result = some e
    ∧ (sayCmd ctx msg).state = st
    ∧ (sayCmd ctx msg).submitted = none
    ∧ (sayCmd ctx msg).usedSource = none
    ∧ (sayCmd ctx msg).createdSource = false
    ∧ (sayCmd ctx msg).trace = (sayConn ctx).trace
    ∧ ∀ sid, occursIn (.submitCall sid) (sayCmd ctx msg).trace = false := by
  refine ⟨?_, ?_, ?_, ?_, ?_, ?_, fun sid => ?_⟩ <;> simp [sayCmd, herr]
  exact (sayConn_trace_events ctx sid).1

/-- Concrete invocation for C8: no session and the bot lacks the required
permissions on the target channel, so the connect step fails. -/
def ctxC8 : Ctx :=
  { voiceClient := none,
    authorChannel := 2, author := 7, textChannel := 3,
    canDisconnectOk := true, requiredPermsOk := false,
    moveFails := false, connectFails := false, disconnectFails := false,
    profiles := [], voices := fun _ => "en", nextSid := 0 }

theorem say_connect_failure_propagates_w :
    (sayCmd ctxC8 "hi").result = some .permissionError
    ∧ (sayCmd ctxC8 "hi").submitted = none :=
  ⟨(say_connect_failure_propagates ctxC8 "hi" .permissionError none rfl).1,
   (say_connect_failure_propagates ctxC8 "hi" .permissionError none rfl).2.2.1⟩

/-- C9: every submission of `say` carries the profile resolved by looking
up `(invoker, invocation channel)` in the profile registry; when the pair
is not registered the default profile is applied — the lookup never
fails. -/
theorem say_resolves_profile (ctx : Ctx) (msg op : String) (vc : VoiceClient)
    (hok : (sayConn ctx).res = .ok op vc) :
    (sayCmd ctx msg).submitted =
      some ⟨msg, ctx.voices (resolveAlias ctx.profiles ctx.author ctx.textChannel)⟩
    ∧ (List.lookup (ctx.author, ctx.textChannel) ctx.profiles = none →
        (sayCmd ctx msg).submitted = some ⟨msg, ctx.voices "default"⟩) := by
  constructor
  · cases hp : vc.player <;> cases hpl : vc.playing <;> simp [sayCmd, hok, hp, hpl]
  · intro h
    cases hp : vc.player <;> cases hpl : vc.playing <;>
      simp [sayCmd, hok, hp, hpl, resolveAlias, h]

/-- Concrete invocation for C9: connected on the invoker's channel, empty
profile registry, so the default applies. -/
def ctxC9 : Ctx :=
  { voiceClient := some { channel := 1, player := none, playing := false },
    authorChannel := 1, author := 7, textChannel := 3,
    canDisconnectOk := true, requiredPermsOk := true,
    moveFails := false, connectFails := false, disconnectFails := false,
    profiles := [], voices := fun _ => "en-US-Wavenet", nextSid := 0 }

theorem say_resolves_profile_w :
    (sayCmd ctxC9 "hi").submitted = some ⟨"hi", "en-US-Wavenet"⟩ :=
  (say_resolves_profile ctxC9 "hi" "AlreadyConnected"
    { channel := 1, player := none, playing := false } rfl).2 rfl

/-- C10: with no current session, `disconnect` only sends the
informational not-connected message: no `can_disconnect` check is
invoked, no backend disconnect call is made, and the (absent) session
state is unchanged. -/
theorem disconnect_no_session (ctx : Ctx) (hvc : ctx.voiceClient = none) :
    disconnectCmd ctx =
      { result := .notConnected, state := none, trace := [.sendInfo] }
    ∧ occursIn .checkCanDisconnect (disconnectCmd ctx).trace = false
    ∧ occursIn .disconnectCall (disconnectCmd ctx).trace = false := by
  simp [disconnectCmd, hvc, occursIn]

/-- Concrete invocation for C10: no session. -/
def ctxC10 : Ctx :=
  { voiceClient := none,
    authorChannel := 2, author := 7, textChannel := 3,
    canDisconnectOk := false, requiredPermsOk := true,
    moveFails := false, connectFails := false, disconnectFails := true,
    profiles := [], voices := fun _ => "en", nextSid := 0 }

theorem disconnect_no_session_w :
    disconnectCmd ctxC10 =
      { result := .notConnected, state := none, trace := [.sendInfo] }
    ∧ occursIn .checkCanDisconnect (disconnectCmd ctxC10).trace = false
    ∧ occursIn .disconnectCall (disconnectCmd ctxC10).trace = false :=
  disconnect_no_session ctxC10 rfl

end Blabber
